import Mathlib

/-!
Verification of the gmail_agent decision-and-reputation engine.

Shallow embedding of the core modules:
- `gmail_agent/config.py` (constants, thresholds, protected lists)
- `gmail_agent/classifier.py` (`Classifier.is_safe_sender`, `Classifier.determine_action`)
- `gmail_agent/storage.py` (`Storage.update_sender`, `Storage.is_trusted`, `Storage._load_data`)
- `gmail_agent/actions.py` (`ActionHandler.execute_action`, `ActionHandler.create_filter_if_trusted`)

Strings are modelled by Lean `String`; Python `str.lower`/`str.upper` are
modelled by ASCII `Char.toLower`/`Char.toUpper` (all strings appearing in
the repository's constants are ASCII).  Python floats are modelled by `ℚ`.
Side effects (mailbox adapter calls, log records) are modelled as an
explicitly returned event list.
-/

namespace GmailAgent

/-! ### Python string primitives -/

/-- Python `s.lower()` (ASCII model). -/
def pyLower (s : String) : String := String.mk (s.toList.map Char.toLower)

/-- Python `s.split('@')[-1]`: the substring after the last `'@'`,
or the whole string when no `'@'` occurs. -/
def pyAfterLastAt (s : String) : String :=
  String.mk ((s.toList.reverse.takeWhile (fun ch => ch ≠ '@')).reverse)

/-- Python `needle in haystack` (substring containment test),
implemented as a scan over all suffixes. -/
def pyContainsSub (haystack needle : String) : Bool :=
  (List.range (haystack.toList.length + 1)).any
    (fun i => needle.toList.isPrefixOf (haystack.toList.drop i))

/-- Python `s.capitalize()` (ASCII model): first character upper-cased,
remainder lower-cased. -/
def pyCapitalize (s : String) : String :=
  match s.toList with
  | [] => ""
  | ch :: rest => String.mk (Char.toUpper ch :: rest.map Char.toLower)

/-- Mathematical substring relation: `needle` occurs contiguously in
`haystack` (used to state what `pyContainsSub` decides). -/
def SubstrOf (needle haystack : String) : Prop :=
  ∃ l r : List Char, haystack.toList = l ++ needle.toList ++ r

/-! ### `gmail_agent/config.py` -/

/-- `config.PROTECTED_DOMAINS`. -/
def PROTECTED_DOMAINS : List String :=
  ["google.com", "apple.com", "amazon.com", "microsoft.com",
   "gov", "edu", "mil",
   "chase.com", "bankofamerica.com", "wellsfargo.com", "citi.com", "amex.com",
   "stripe.com", "paypal.com",
   "linkedin.com", "github.com", "gitlab.com"]

/-- `config.CONFIDENCE_ARCHIVE` (Python float `0.80`, modelled in `ℚ`). -/
def CONFIDENCE_ARCHIVE : ℚ := 80 / 100

/-- `config.CONFIDENCE_REVIEW` (Python float `0.55`, modelled in `ℚ`). -/
def CONFIDENCE_REVIEW : ℚ := 55 / 100

/-- `config.TRUSTED_SENDER_THRESHOLD`. -/
def TRUSTED_SENDER_THRESHOLD : Nat := 3

/-! ### `gmail_agent/classifier.py` -/

namespace Classifier

/-- `Classifier.is_safe_sender`:
```
if not sender_email or '@' not in sender_email:
    return False
domain = sender_email.split('@')[-1].lower()
for protected in PROTECTED_DOMAINS:
    if protected in domain:
        return True
return False
``` -/
def is_safe_sender (sender_email : String) : Bool :=
  if sender_email.isEmpty || !(sender_email.toList.contains '@') then
    false
  else
    let domain := pyLower (pyAfterLastAt sender_email)
    PROTECTED_DOMAINS.any (fun p => pyContainsSub domain p)

/-- `Classifier.determine_action`:
```
if classification == "IMPORTANT":
    return "SKIP"
if confidence >= CONFIDENCE_ARCHIVE:
    return "ARCHIVE"
elif confidence >= CONFIDENCE_REVIEW:
    return "REVIEW"
else:
    return "SKIP"
``` -/
def determine_action (classification : String) (confidence : ℚ) : String :=
  if classification = "IMPORTANT" then "SKIP"
  else if confidence ≥ CONFIDENCE_ARCHIVE then "ARCHIVE"
  else if confidence ≥ CONFIDENCE_REVIEW then "REVIEW"
  else "SKIP"

end Classifier

/-! ### `gmail_agent/storage.py` -/

/-- `storage.MARKETING_TYPES`. -/
def MARKETING_TYPES : List String := ["NEWSLETTER", "PROMOTION", "COURSE", "OUTREACH"]

/-- One entry of `Storage.data` (the per-sender JSON object created and
mutated by `Storage.update_sender`). -/
structure SenderRecord where
  domain : String
  classifications : String → Nat
  last_seen : String
  trusted_marketing_source : Bool

/-- The in-memory store `Storage.data`: a keyed record collection,
modelled extensionally as a partial map from sender address to record. -/
def StoreData : Type := String → Option SenderRecord

/-- The empty store (`{}` in Python). -/
def emptyData : StoreData := fun _ => none

namespace Storage

/-- `Storage.update_sender(sender_email, classification)`.  The current
time (`datetime.now().isoformat()`) is passed in as `now`; the call to
`self._save_data()` writes the whole returned store to durable storage and
does not change it.  Returns the `bool` result together with the new store:
```
if sender_email not in self.data:
    self.data[sender_email] = {"domain": sender_email.split('@')[-1].lower(),
                               "classifications": {}, "last_seen": "",
                               "trusted_marketing_source": False}
entry = self.data[sender_email]
entry["last_seen"] = datetime.now().isoformat()
current_count = entry["classifications"].get(classification, 0)
entry["classifications"][classification] = current_count + 1
was_trusted = entry["trusted_marketing_source"]
if classification in MARKETING_TYPES:
    total_marketing_count = sum(entry["classifications"].get(t, 0) for t in MARKETING_TYPES)
    if total_marketing_count >= TRUSTED_SENDER_THRESHOLD:
        entry["trusted_marketing_source"] = True
self._save_data()
return entry["trusted_marketing_source"] and not was_trusted
``` -/
def update_sender (data : StoreData) (sender_email classification now : String) :
    Bool × StoreData :=
  let entry0 : SenderRecord :=
    match data sender_email with
    | some e => e
    | none =>
      { domain := pyLower (pyAfterLastAt sender_email)
        classifications := fun _ => 0
        last_seen := ""
        trusted_marketing_source := false }
  let entry1 := { entry0 with last_seen := now }
  let current_count := entry1.classifications classification
  let entry2 := { entry1 with
    classifications := fun k =>
      if k = classification then current_count + 1 else entry1.classifications k }
  let was_trusted := entry2.trusted_marketing_source
  let entry3 :=
    if MARKETING_TYPES.contains classification then
      let total_marketing_count := (MARKETING_TYPES.map entry2.classifications).sum
      if total_marketing_count ≥ TRUSTED_SENDER_THRESHOLD then
        { entry2 with trusted_marketing_source := true }
      else entry2
    else entry2
  let data' : StoreData := fun k => if k = sender_email then some entry3 else data k
  (entry3.trusted_marketing_source && !was_trusted, data')

/-- `Storage.is_trusted`:
`self.data.get(sender_email, {}).get("trusted_marketing_source", False)`. -/
def is_trusted (data : StoreData) (sender_email : String) : Bool :=
  match data sender_email with
  | some e => e.trusted_marketing_source
  | none => false

/-- `Storage.get_sender_data`: `self.data.get(sender_email)`. -/
def get_sender_data (data : StoreData) (sender_email : String) : Option SenderRecord :=
  data sender_email

/-- Outcome of the durable-storage read attempted by `Storage._load_data`
at startup: the file may be missing (`os.path.exists` false), unreadable
(`IOError`), unparsable (`json.JSONDecodeError`), or hold a store. -/
inductive ReadResult where
  | missing : ReadResult
  | unreadable : ReadResult
  | unparsable : ReadResult
  | ok : StoreData → ReadResult

/-- `Storage._load_data`:
```
if not os.path.exists(self.file_path):
    return {}
try:
    with open(self.file_path, 'r', encoding='utf-8') as f:
        return json.load(f)
except (json.JSONDecodeError, IOError) as e:
    logger.error(...)
    return {}
``` -/
def load_data : ReadResult → StoreData
  | .missing => emptyData
  | .unreadable => emptyData
  | .unparsable => emptyData
  | .ok d => d

end Storage

/-! ### `gmail_agent/actions.py`

Side effects are modelled as an explicitly returned event list: one event
per mailbox-adapter call (`add_label`, `archive_message`, `create_filter`)
and one per `logger.info` diagnostic record, in program order. -/

/-- One observable effect of an `ActionHandler` method. -/
inductive Event where
  | add_label : String → String → Event
  | archive_message : String → Event
  | create_filter : String → String → Event
  | log : String → Event
deriving DecidableEq

/-- The mailbox-adapter calls in an event trace (everything but logs). -/
def gmailCalls (events : List Event) : List Event :=
  events.filter (fun e => match e with | .log _ => false | _ => true)

/-- The dry-run diagnostic records in an event trace: log events whose
message carries the `"[DRY RUN]"` marker. -/
def dryRunLogs (events : List Event) : List Event :=
  events.filter (fun e =>
    match e with
    | .log msg => "[DRY RUN]".toList.isPrefixOf msg.toList
    | _ => false)

namespace ActionHandler

/-- The label derivation at `actions.py` line 27 (inside `execute_action`):
`label_name = f"AUTO/{classification.capitalize()}"`. -/
def label_name_execute (classification : String) : String :=
  "AUTO/" ++ pyCapitalize classification

/-- The label derivation at `actions.py` line 62 (inside
`create_filter_if_trusted`): `label_name = f"AUTO/{classification.capitalize()}"`. -/
def label_name_filter (classification : String) : String :=
  "AUTO/" ++ pyCapitalize classification

/-- Modelled from the spec (§4.2 label naming), for comparison with the
two call sites: "the label applied is derived deterministically from the
classification string with its first character upper-cased and the
remainder lower-cased, prefixed with a fixed namespace". -/
def labelNameSpec (classification : String) : String :=
  match classification.toList with
  | [] => "AUTO/"
  | ch :: rest => "AUTO/" ++ String.mk (Char.toUpper ch :: rest.map Char.toLower)

/-- `ActionHandler.execute_action(message_id, action, classification)`,
returning the event trace:
```
label_name = f"AUTO/{classification.capitalize()}"
if action == "SKIP":
    logger.info(f"Action: SKIP for {message_id}")
    return
if self.dry_run:
    logger.info(f"[DRY RUN] Would apply label {label_name} to {message_id}")
    if action == "ARCHIVE":
        logger.info(f"[DRY RUN] Would archive {message_id}")
    return
self.gmail.add_label(message_id, label_name)
if action == "ARCHIVE":
    self.gmail.archive_message(message_id)
``` -/
def execute_action (dry_run : Bool) (message_id action classification : String) :
    List Event :=
  let label_name := label_name_execute classification
  if action = "SKIP" then
    [.log ("Action: SKIP for " ++ message_id)]
  else if dry_run then
    [.log ("[DRY RUN] Would apply label " ++ label_name ++ " to " ++ message_id)] ++
    (if action = "ARCHIVE" then [.log ("[DRY RUN] Would archive " ++ message_id)] else [])
  else
    [.add_label message_id label_name] ++
    (if action = "ARCHIVE" then [.archive_message message_id] else [])

/-- `ActionHandler.create_filter_if_trusted(sender_email, classification, is_trusted)`,
returning the event trace:
```
if not is_trusted:
    return
if classification not in MARKETING_TYPES:
    return
label_name = f"AUTO/{classification.capitalize()}"
if self.dry_run:
    logger.info(f"[DRY RUN] Would create filter for {sender_email} -> {label_name}")
    return
logger.info(f"Creating filter for trusted sender {sender_email}")
self.gmail.create_filter(sender_email, label_name)
``` -/
def create_filter_if_trusted (dry_run : Bool) (sender_email classification : String)
    (is_trusted : Bool) : List Event :=
  if !is_trusted then []
  else if !(MARKETING_TYPES.contains classification) then []
  else
    let label_name := label_name_filter classification
    if dry_run then
      [.log ("[DRY RUN] Would create filter for " ++ sender_email ++ " -> " ++ label_name)]
    else
      [.log ("Creating filter for trusted sender " ++ sender_email),
       .create_filter sender_email label_name]

end ActionHandler

end GmailAgent

namespace GmailAgent


/-! ### Observation helpers for the store (used to state frame properties) -/

/-- The stored count for classification `k` of sender `a`
(`data.get(a, {}).get("classifications", {}).get(k, 0)`). -/
def getCount (data : StoreData) (a k : String) : Nat :=
  match data a with
  | some e => e.classifications k
  | none => 0

/-- The stored `domain` field of sender `a`, when the record exists. -/
def getDomain (data : StoreData) (a : String) : Option String :=
  (data a).map SenderRecord.domain

/-- The stored `last_seen` field of sender `a`, when the record exists. -/
def getLastSeen (data : StoreData) (a : String) : Option String :=
  (data a).map SenderRecord.last_seen

/-- Concrete store used by witnesses: one `"PROMOTION"` update applied to
the empty store. -/
def promoStore1 : StoreData :=
  (Storage.update_sender emptyData "promo@brand.com" "PROMOTION" "t1").2

/-- Concrete store used by witnesses: three `"PROMOTION"` updates applied
to the empty store, after which `promo@brand.com` is trusted. -/
def promoStore3 : StoreData :=
  (Storage.update_sender
    (Storage.update_sender promoStore1 "promo@brand.com" "PROMOTION" "t2").2
    "promo@brand.com" "PROMOTION" "t3").2

/-! ### Helper lemmas -/

/-- The suffix scan `pyContainsSub` decides the substring relation. -/
theorem pyContainsSub_iff (haystack needle : String) :
    pyContainsSub haystack needle = true ↔ SubstrOf needle haystack := by
  unfold pyContainsSub SubstrOf
  rw [List.any_eq_true]
  constructor
  · rintro ⟨i, _, hpre⟩
    rw [List.isPrefixOf_iff_prefix] at hpre
    obtain ⟨t, ht⟩ := hpre
    refine ⟨haystack.toList.take i, t, ?_⟩
    conv_lhs => rw [← List.take_append_drop i haystack.toList]
    rw [← ht, List.append_assoc]
  · rintro ⟨l, r, h⟩
    refine ⟨l.length, ?_, ?_⟩
    · rw [List.mem_range, h]
      simp only [List.length_append]
      omega
    · rw [List.isPrefixOf_iff_prefix, h, List.append_assoc, List.drop_left]
      exact List.prefix_append _ _

/-- A string with no `'@'` is returned whole by `split('@')[-1]`. -/
theorem pyAfterLastAt_of_no_at (s : String) (h : s.toList.contains '@' = false) :
    pyAfterLastAt s = s := by
  unfold pyAfterLastAt
  have hmem : '@' ∉ s.toList := by simpa using h
  have hall : ∀ ch ∈ s.toList.reverse, decide (ch ≠ '@') = true := by
    intro ch hch
    rw [List.mem_reverse] at hch
    rw [decide_eq_true_eq]
    rintro rfl
    exact hmem hch
  rw [List.takeWhile_eq_self_iff.mpr hall, List.reverse_reverse]
  cases s
  rfl


/-! ### C1: safety filter on sender addresses -/

/-- **C1** (counterexample to the original claim). The claim states that
`is_safe_sender` returns `true` for every malformed address (no `'@'`),
i.e. that it agrees with the disjunction "malformed OR protected domain".
At the concrete input `"noatsign"` (which has no `'@'`) the code returns
`false` while the claimed disjunction is `true`. -/
theorem is_safe_sender_no_at_counterexample :
    ¬ (Classifier.is_safe_sender "noatsign" =
        (!("noatsign".toList.contains '@') ||
         PROTECTED_DOMAINS.any (fun p => pyContainsSub (pyLower (pyAfterLastAt "noatsign")) p))) := by
  decide

/-- **C1** (amended). For every address string, `is_safe_sender` returns
`true` if and only if the address contains an `'@'` AND the lower-cased
domain (the substring after the last `'@'`) contains some entry of the
fixed protected-domain list as a substring; in particular, for every
address with no `'@'`, `is_safe_sender` returns `false`. -/
theorem is_safe_sender_characterization (a : String) :
    Classifier.is_safe_sender a = true ↔
      ('@' ∈ a.toList ∧
       ∃ p ∈ PROTECTED_DOMAINS, SubstrOf p (pyLower (pyAfterLastAt a))) := by
  unfold Classifier.is_safe_sender
  by_cases hA : '@' ∈ a.toList
  · have hc : a.toList.contains '@' = true := by simpa using hA
    have hne : a.isEmpty = false := by
      rw [Bool.eq_false_iff]
      intro hEmpty
      rw [String.isEmpty_iff] at hEmpty
      subst hEmpty
      simp at hA
    rw [hne, hc]
    rw [if_neg (by simp)]
    rw [List.any_eq_true]
    constructor
    · rintro ⟨p, hp, hsub⟩
      exact ⟨hA, p, hp, (pyContainsSub_iff _ _).mp hsub⟩
    · rintro ⟨_, p, hp, hsub⟩
      exact ⟨p, hp, (pyContainsSub_iff _ _).mpr hsub⟩
  · have hc : a.toList.contains '@' = false := by simpa using hA
    rw [hc]
    rw [if_pos (by simp)]
    constructor
    · intro h0
      simp at h0
    · rintro ⟨hmem, -⟩
      exact absurd hmem hA

/-- Updating sender `a` leaves every other key of the store unchanged. -/
theorem update_sender_lookup_other (data : StoreData) (a c now b : String)
    (h : b ≠ a) :
    (Storage.update_sender data a c now).2 b = data b := by
  unfold Storage.update_sender
  simp only [if_neg h]

/-- The boolean returned by `update_sender` equals "trusted after the
update AND NOT trusted before". -/
theorem update_sender_fst_eq (data : StoreData) (a c now : String) :
    (Storage.update_sender data a c now).1 =
      (Storage.is_trusted (Storage.update_sender data a c now).2 a &&
       !(Storage.is_trusted data a)) := by
  unfold Storage.update_sender Storage.is_trusted
  cases hd : data a with
  | none => simp [hd]
  | some e => simp [hd]

/-- Updating a sender never lowers its own trust flag. -/
theorem update_sender_self_trusted_mono (data : StoreData) (a c now : String)
    (h : Storage.is_trusted data a = true) :
    Storage.is_trusted (Storage.update_sender data a c now).2 a = true := by
  unfold Storage.is_trusted at h
  unfold Storage.update_sender Storage.is_trusted
  cases hd : data a with
  | none =>
    simp only [hd] at h
    cases h
  | some e =>
    simp only [hd] at h ⊢
    simp only [eq_self_iff_true, if_true]
    split
    · split
      · simp
      · simpa using h
    · simpa using h

/-! ### C2, C3: reputation store trust promotion -/

/-- **C2**. `update_sender` returns `true` iff that call flips the
sender's `trusted_marketing_source` flag from false to true; moreover, for
a fresh sender, three consecutive `"PROMOTION"` updates return
`false, false, true` (with `is_trusted` false after calls 1-2 and true
after call 3), and a fourth identical call returns `false` while
`is_trusted` stays true. -/
theorem update_sender_promotion_signal (data : StoreData) (a c now : String) :
    ((Storage.update_sender data a c now).1 = true ↔
      (Storage.is_trusted data a = false ∧
       Storage.is_trusted (Storage.update_sender data a c now).2 a = true)) ∧
    (let s1 := Storage.update_sender emptyData "promo@brand.com" "PROMOTION" "t1"
     let s2 := Storage.update_sender s1.2 "promo@brand.com" "PROMOTION" "t2"
     let s3 := Storage.update_sender s2.2 "promo@brand.com" "PROMOTION" "t3"
     let s4 := Storage.update_sender s3.2 "promo@brand.com" "PROMOTION" "t4"
     s1.1 = false ∧ Storage.is_trusted s1.2 "promo@brand.com" = false ∧
     s2.1 = false ∧ Storage.is_trusted s2.2 "promo@brand.com" = false ∧
     s3.1 = true ∧ Storage.is_trusted s3.2 "promo@brand.com" = true ∧
     s4.1 = false ∧ Storage.is_trusted s4.2 "promo@brand.com" = true) := by
  constructor
  · unfold Storage.update_sender Storage.is_trusted
    cases hd : data a with
    | none =>
      simp only [hd]
      split
      · split
        · simp
        · simp
      · simp
    | some e =>
      simp only [hd]
      split
      · split
        · simp
        · simp
      · simp
  · decide

/-- **C3**. The trust flag is monotonic: once a sender is trusted, no
later `update_sender` call (on any address and classification) resets it,
and no later call on that sender ever returns `true` again. -/
theorem trusted_monotone (data : StoreData) (a c now b : String)
    (h : Storage.is_trusted data b = true) :
    Storage.is_trusted (Storage.update_sender data a c now).2 b = true ∧
    (Storage.update_sender data b c now).1 = false := by
  constructor
  · by_cases hba : b = a
    · subst hba
      exact update_sender_self_trusted_mono data b c now h
    · unfold Storage.is_trusted at h ⊢
      rw [update_sender_lookup_other data a c now b hba]
      exact h
  · rw [update_sender_fst_eq, h]
    simp

/-- Witness for **C3** at a concrete trusted store. -/
theorem trusted_monotone_witness :
    Storage.is_trusted
      (Storage.update_sender promoStore3 "other@z.org" "NEWSLETTER" "t5").2
      "promo@brand.com" = true ∧
    (Storage.update_sender promoStore3 "promo@brand.com" "NEWSLETTER" "t5").1 = false := by
  exact trusted_monotone promoStore3 "other@z.org" "NEWSLETTER" "t5" "promo@brand.com"
    (by decide)

/-! ### C4: confidence-to-action mapping -/

/-- **C4**. `determine_action` follows the ordered rules: classification
`"IMPORTANT"` yields `"SKIP"` regardless of confidence; otherwise
confidence `≥ 0.80` yields `"ARCHIVE"`, else confidence `≥ 0.55` yields
`"REVIEW"`, else `"SKIP"`; both threshold comparisons are inclusive. -/
theorem determine_action_rules (c : String) (q : ℚ) :
    (c = "IMPORTANT" → Classifier.determine_action c q = "SKIP") ∧
    (c ≠ "IMPORTANT" → CONFIDENCE_ARCHIVE ≤ q →
      Classifier.determine_action c q = "ARCHIVE") ∧
    (c ≠ "IMPORTANT" → q < CONFIDENCE_ARCHIVE → CONFIDENCE_REVIEW ≤ q →
      Classifier.determine_action c q = "REVIEW") ∧
    (c ≠ "IMPORTANT" → q < CONFIDENCE_REVIEW →
      Classifier.determine_action c q = "SKIP") := by
  unfold Classifier.determine_action
  refine ⟨?_, ?_, ?_, ?_⟩
  · intro h
    rw [if_pos h]
  · intro h hq
    rw [if_neg h, if_pos (by exact hq)]
  · intro h hq1 hq2
    rw [if_neg h, if_neg (by exact not_le.mpr hq1), if_pos (by exact hq2)]
  · intro h hq
    have hq1 : ¬ (CONFIDENCE_ARCHIVE ≤ q) := by
      intro hle
      have : CONFIDENCE_REVIEW < CONFIDENCE_ARCHIVE := by
        unfold CONFIDENCE_REVIEW CONFIDENCE_ARCHIVE
        norm_num
      linarith
    rw [if_neg h, if_neg hq1, if_neg (by exact not_le.mpr hq)]

/-- Witness for **C4**, covering each rule and the inclusive boundary. -/
theorem determine_action_rules_witness :
    Classifier.determine_action "IMPORTANT" (99/100) = "SKIP" ∧
    Classifier.determine_action "NEWSLETTER" (80/100) = "ARCHIVE" ∧
    Classifier.determine_action "NEWSLETTER" (55/100) = "REVIEW" ∧
    Classifier.determine_action "NEWSLETTER" (40/100) = "SKIP" := by
  refine ⟨(determine_action_rules "IMPORTANT" (99/100)).1 rfl,
    (determine_action_rules "NEWSLETTER" (80/100)).2.1 (by decide)
      (by unfold CONFIDENCE_ARCHIVE; norm_num),
    (determine_action_rules "NEWSLETTER" (55/100)).2.2.1 (by decide)
      (by unfold CONFIDENCE_ARCHIVE; norm_num)
      (by unfold CONFIDENCE_REVIEW; norm_num),
    (determine_action_rules "NEWSLETTER" (40/100)).2.2.2 (by decide)
      (by unfold CONFIDENCE_REVIEW; norm_num)⟩

/-! ### C5, C6, C7: action executor call contract -/

/-- **C5**. Outside dry-run mode, `execute_action` with `"ARCHIVE"` issues
exactly one add-label call (with the derived label) followed by exactly
one archive call; with `"REVIEW"` exactly the one add-label call; with
`"SKIP"` no mailbox adapter call at all. -/
theorem execute_action_calls (message_id classification : String) :
    ActionHandler.execute_action false message_id "ARCHIVE" classification =
      [Event.add_label message_id (ActionHandler.label_name_execute classification),
       Event.archive_message message_id] ∧
    ActionHandler.execute_action false message_id "REVIEW" classification =
      [Event.add_label message_id (ActionHandler.label_name_execute classification)] ∧
    gmailCalls (ActionHandler.execute_action false message_id "SKIP" classification) = [] := by
  exact ⟨rfl, rfl, rfl⟩

/-- **C6**. `create_filter_if_trusted` performs no filter-creation call
unless the sender is trusted and the classification is a marketing one;
when both hold outside dry-run it issues exactly one filter-creation call
with the derived label. -/
theorem create_filter_calls (dry_run : Bool) (a c : String) (t : Bool) :
    ((t = false ∨ MARKETING_TYPES.contains c = false) →
      ActionHandler.create_filter_if_trusted dry_run a c t = []) ∧
    (t = true → MARKETING_TYPES.contains c = true →
      gmailCalls (ActionHandler.create_filter_if_trusted false a c t) =
        [Event.create_filter a (ActionHandler.label_name_filter c)]) := by
  constructor
  · rintro (rfl | hm)
    · rfl
    · unfold ActionHandler.create_filter_if_trusted
      simp only [hm]
      cases t <;> simp
  · rintro rfl hm
    unfold ActionHandler.create_filter_if_trusted
    simp only [hm]
    rfl

/-- Witness for **C6**: trusted + marketing triggers the single call;
non-marketing or untrusted inputs trigger none. -/
theorem create_filter_calls_witness :
    ActionHandler.create_filter_if_trusted false "addr@x.com" "IMPORTANT" true = [] ∧
    ActionHandler.create_filter_if_trusted false "addr@x.com" "PROMOTION" false = [] ∧
    gmailCalls (ActionHandler.create_filter_if_trusted false "addr@x.com" "PROMOTION" true) =
      [Event.create_filter "addr@x.com" (ActionHandler.label_name_filter "PROMOTION")] := by
  exact ⟨(create_filter_calls false "addr@x.com" "IMPORTANT" true).1 (Or.inr (by decide)),
    (create_filter_calls false "addr@x.com" "PROMOTION" false).1 (Or.inl rfl),
    (create_filter_calls false "addr@x.com" "PROMOTION" true).2 rfl (by decide)⟩

/-- **C7**. In dry-run mode neither `execute_action` nor
`create_filter_if_trusted` makes any mailbox adapter call, and each
would-be mutating call is replaced by exactly one `"[DRY RUN]"` diagnostic
record (their count equals the number of adapter calls the same inputs
produce outside dry-run). -/
theorem dry_run_no_adapter_calls (message_id action classification a c : String) (t : Bool) :
    gmailCalls (ActionHandler.execute_action true message_id action classification) = [] ∧
    gmailCalls (ActionHandler.create_filter_if_trusted true a c t) = [] ∧
    (dryRunLogs (ActionHandler.execute_action true message_id action classification)).length =
      (gmailCalls (ActionHandler.execute_action false message_id action classification)).length ∧
    (dryRunLogs (ActionHandler.create_filter_if_trusted true a c t)).length =
      (gmailCalls (ActionHandler.create_filter_if_trusted false a c t)).length := by
  refine ⟨?_, ?_, ?_, ?_⟩
  · by_cases h1 : action = "SKIP"
    · subst h1; rfl
    · by_cases h2 : action = "ARCHIVE"
      · subst h2; rfl
      · simp only [ActionHandler.execute_action, if_neg h1, if_neg h2]
        rfl
  · cases t with
    | false => rfl
    | true =>
      by_cases hm : MARKETING_TYPES.contains c = true
      · simp only [ActionHandler.create_filter_if_trusted, hm]
        rfl
      · have hm2 : MARKETING_TYPES.contains c = false := by simpa using hm
        simp only [ActionHandler.create_filter_if_trusted, hm2]
        rfl
  · by_cases h1 : action = "SKIP"
    · subst h1; rfl
    · by_cases h2 : action = "ARCHIVE"
      · subst h2; rfl
      · simp only [ActionHandler.execute_action, if_neg h1, if_neg h2]
        rfl
  · cases t with
    | false => rfl
    | true =>
      by_cases hm : MARKETING_TYPES.contains c = true
      · simp only [ActionHandler.create_filter_if_trusted, hm]
        rfl
      · have hm2 : MARKETING_TYPES.contains c = false := by simpa using hm
        simp only [ActionHandler.create_filter_if_trusted, hm2]
        rfl

/-! ### C8: label derivation is shared and pure -/

/-- **C8**. The label derivation is one pure function of the
classification: the expression at the `execute_action` call site, the
expression at the `create_filter_if_trusted` call site, and the spec's
description (fixed `"AUTO/"` prefix, first character upper-cased,
remainder lower-cased) all agree; `"NEWSLETTER"` yields
`"AUTO/Newsletter"`. -/
theorem label_derivation_shared (c : String) :
    ActionHandler.label_name_execute c = ActionHandler.label_name_filter c ∧
    ActionHandler.label_name_execute c = ActionHandler.labelNameSpec c ∧
    ActionHandler.label_name_execute "NEWSLETTER" = "AUTO/Newsletter" := by
  refine ⟨rfl, ?_, by decide⟩
  unfold ActionHandler.label_name_execute ActionHandler.labelNameSpec pyCapitalize
  rcases c with ⟨l⟩
  cases l with
  | nil => rfl
  | cons ch rest => rfl

/-! ### C9: startup read failure degrades to the empty store -/

/-- **C9**. A durable-storage read failure at startup (missing file,
unreadable file, or unparsable content) initializes the store to the empty
store, and every subsequent operation behaves exactly as on a fresh
store. -/
theorem load_data_failure_empty :
    Storage.load_data .missing = emptyData ∧
    Storage.load_data .unreadable = emptyData ∧
    Storage.load_data .unparsable = emptyData ∧
    (∀ a c now, Storage.update_sender (Storage.load_data .missing) a c now =
      Storage.update_sender emptyData a c now) ∧
    (∀ a, Storage.is_trusted (Storage.load_data .unparsable) a =
      Storage.is_trusted emptyData a) := by
  exact ⟨rfl, rfl, rfl, fun _ _ _ => rfl, fun _ => rfl⟩

/-! ### C10: frame property of `update_sender` -/

/-- **C10**. `update_sender a c` mutates only the record keyed by `a`:
records of other addresses are unchanged; within `a`'s record the count
for `c` is incremented by exactly one, every other classification count is
unchanged, the `domain` field of an existing record is unchanged, a fresh
record's `domain` is the lower-cased substring after the last `'@'` (the
entire lower-cased address when no `'@'` occurs, so no exception is
possible for malformed addresses), and `last_seen` is overwritten with the
current time. -/
theorem update_sender_frame (data : StoreData) (a c now b k : String) :
    (b ≠ a → (Storage.update_sender data a c now).2 b = data b) ∧
    (getCount (Storage.update_sender data a c now).2 a c = getCount data a c + 1) ∧
    (k ≠ c → getCount (Storage.update_sender data a c now).2 a k = getCount data a k) ∧
    ((data a).isSome = true →
      getDomain (Storage.update_sender data a c now).2 a = getDomain data a) ∧
    (data a = none →
      getDomain (Storage.update_sender data a c now).2 a =
        some (pyLower (pyAfterLastAt a))) ∧
    (data a = none → a.toList.contains '@' = false →
      getDomain (Storage.update_sender data a c now).2 a = some (pyLower a)) ∧
    getLastSeen (Storage.update_sender data a c now).2 a = some now := by
  refine ⟨fun h => update_sender_lookup_other data a c now b h, ?_, ?_, ?_, ?_, ?_, ?_⟩
  · unfold getCount Storage.update_sender
    cases hd : data a with
    | none => simp [hd]; (split <;> (try split)) <;> simp
    | some e => simp [hd]; (split <;> (try split)) <;> simp
  · intro hk
    unfold getCount Storage.update_sender
    cases hd : data a with
    | none => simp [hd]; (split <;> (try split)) <;> simp [hk]
    | some e => simp [hd]; (split <;> (try split)) <;> simp [hk]
  · intro hsome
    unfold getDomain Storage.update_sender
    cases hd : data a with
    | none => rw [hd] at hsome; cases hsome
    | some e => simp [hd]; (split <;> (try split)) <;> simp
  · intro hnone
    unfold getDomain Storage.update_sender
    simp [hnone]
    (split <;> (try split)) <;> simp
  · intro hnone hat
    unfold getDomain Storage.update_sender
    simp [hnone, pyAfterLastAt_of_no_at a hat]
    (split <;> (try split)) <;> simp
  · unfold getLastSeen Storage.update_sender
    cases hd : data a with
    | none => simp [hd]; (split <;> (try split)) <;> simp
    | some e => simp [hd]; (split <;> (try split)) <;> simp

/-- Witness for **C10**: concrete frame facts around one update of the
one-sender store `promoStore1` and one update of the empty store with a
malformed address. -/
theorem update_sender_frame_witness :
    (Storage.update_sender promoStore1 "other@z.org" "COURSE" "t9").2 "promo@brand.com" =
      promoStore1 "promo@brand.com" ∧
    getCount (Storage.update_sender promoStore1 "promo@brand.com" "COURSE" "t9").2
      "promo@brand.com" "COURSE" =
      getCount promoStore1 "promo@brand.com" "COURSE" + 1 ∧
    getCount (Storage.update_sender promoStore1 "promo@brand.com" "COURSE" "t9").2
      "promo@brand.com" "PROMOTION" =
      getCount promoStore1 "promo@brand.com" "PROMOTION" ∧
    getDomain (Storage.update_sender promoStore1 "promo@brand.com" "COURSE" "t9").2
      "promo@brand.com" = getDomain promoStore1 "promo@brand.com" ∧
    getDomain (Storage.update_sender emptyData "noatsign" "NEWSLETTER" "t0").2 "noatsign" =
      some (pyLower (pyAfterLastAt "noatsign")) ∧
    getDomain (Storage.update_sender emptyData "noatsign" "NEWSLETTER" "t0").2 "noatsign" =
      some (pyLower "noatsign") ∧
    getLastSeen (Storage.update_sender promoStore1 "promo@brand.com" "COURSE" "t9").2
      "promo@brand.com" = some "t9" := by
  exact ⟨(update_sender_frame promoStore1 "other@z.org" "COURSE" "t9" "promo@brand.com"
            "COURSE").1 (by decide),
    (update_sender_frame promoStore1 "promo@brand.com" "COURSE" "t9" "b" "PROMOTION").2.1,
    (update_sender_frame promoStore1 "promo@brand.com" "COURSE" "t9" "b"
      "PROMOTION").2.2.1 (by decide),
    (update_sender_frame promoStore1 "promo@brand.com" "COURSE" "t9" "b"
      "PROMOTION").2.2.2.1 (by decide),
    (update_sender_frame emptyData "noatsign" "NEWSLETTER" "t0" "b"
      "PROMOTION").2.2.2.2.1 rfl,
    (update_sender_frame emptyData "noatsign" "NEWSLETTER" "t0" "b"
      "PROMOTION").2.2.2.2.2.1 rfl (by decide),
    (update_sender_frame promoStore1 "promo@brand.com" "COURSE" "t9" "b"
      "PROMOTION").2.2.2.2.2.2⟩

end GmailAgent
